import Mathlib

/-!
Verification of the opam manifest handler `src/packagedcode/opam.py`.

The Python module is shallowly embedded: a manifest file is modelled as its
list of lines (each line without its trailing newline character, exactly as
`str.splitlines` would produce them), Python strings become Lean `String`s,
the three module-level regular expressions become deterministic functions
(each of the three patterns is backtracking-free, so a direct functional
reading is exact), the ordered Python dict becomes an association list with
in-place update, and Python exceptions (`IndexError` from `lines[i+1]`,
`AttributeError` from calling `.group` on a failed match) become
`Except.error` values.
-/

namespace OpamToolkit

/-- Python whitespace, as removed by `str.strip()` with no arguments
(restricted to the ASCII whitespace characters, which are the only ones
relevant to the manifests under study). -/
def isPySpace (c : Char) : Bool :=
  c = ' ' || c = '\t' || c = '\n' || c = '\r' || c = '\x0b' || c = '\x0c'

/-- Remove leading characters satisfying `p`. -/
def lstripWith (p : Char → Bool) (l : List Char) : List Char := l.dropWhile p

/-- Remove trailing characters satisfying `p`. -/
def rstripWith (p : Char → Bool) (l : List Char) : List Char :=
  (l.reverse.dropWhile p).reverse

/-- Remove leading and trailing characters satisfying `p`. -/
def stripWith (p : Char → Bool) (l : List Char) : List Char :=
  rstripWith p (lstripWith p l)

/-- Python `s.strip()`. -/
def pyStrip (s : String) : String := String.mk (stripWith isPySpace s.toList)

/-- Python `s.strip(cs)` for an explicit set of characters `cs`. -/
def pyStripChars (cs : List Char) (s : String) : String :=
  String.mk (stripWith (fun c => cs.contains c) s.toList)

/-- Python membership test `c in s` for a single character `c`. -/
def pyContainsChar (c : Char) (s : String) : Bool := s.toList.any (fun a => a == c)

/-- Substring test on character lists: does `pat` occur contiguously in the list? -/
def containsSub (pat : List Char) : List Char → Bool
  | [] => pat.isEmpty
  | c :: rest => List.isPrefixOf pat (c :: rest) || containsSub pat rest

/-- Python substring test `sub in s`. -/
def pyInStr (sub s : String) : Bool := containsSub sub.toList s.toList

/-- The characters removed everywhere by `clean_data`. -/
def strippables : List Char := ['\'', '"', '[', ']']

/-- `clean_data` from opam.py: successively replace each of `'`, `"`, `[`, `]`
by the empty string (equivalently, drop every occurrence of those characters),
then strip surrounding whitespace. -/
def clean_data (data : String) : String :=
  pyStrip (String.mk (data.toList.filter (fun c => !(strippables.contains c))))

/-- Remove every occurrence of one character (Python `s.replace(c, "")`,
as used for `'"'` in the `depends` handler). -/
def removeChar (c : Char) (s : String) : String :=
  String.mk (s.toList.filter (fun a => !(a == c)))

/-- Split a character list at the first occurrence of `c`, returning the
parts before and after that occurrence. -/
def breakAtFirst (c : Char) : List Char → Option (List Char × List Char)
  | [] => none
  | a :: rest =>
    if a = c then some ([], rest)
    else
      match breakAtFirst c rest with
      | none => none
      | some (pre, post) => some (a :: pre, post)

/-- The `parse_file_line` regular expression
`(?P<key>^(.+?))\:\s*(?P<value>(.*))` under `re.match`: the lazy `.+?` makes
`key` the (nonempty) text before the first colon, `\s*` greedily eats the
whitespace after the colon and `value` is the rest of the line. -/
def parse_file_line (line : String) : Option (String × String) :=
  match line.toList with
  | [] => none
  | a :: rest =>
    match breakAtFirst ':' rest with
    | none => none
    | some (pre, post) => some (String.mk (a :: pre), String.mk (post.dropWhile isPySpace))

/-- The `parse_checksum` regular expression
`(?P<key>^(.+?))\=(?P<value>(.*))` under `re.match`: `key` is the (nonempty)
text before the first `=`, `value` the rest. -/
def parse_checksum (s : String) : Option (String × String) :=
  match s.toList with
  | [] => none
  | a :: rest =>
    match breakAtFirst '=' rest with
    | none => none
    | some (pre, post) => some (String.mk (a :: pre), String.mk post)

/-- Characters matched by the `[A-z0-9\-]` class of `parse_dep`
(codepoints 65–122, digits, and the hyphen). -/
def isDepNameChar (c : Char) : Bool :=
  (65 ≤ c.toNat && c.toNat ≤ 122) || (48 ≤ c.toNat && c.toNat ≤ 57) || c = '-'

/-- The `parse_dep` regular expression
`^\s*\"(?P<name>[A-z0-9\-]*)\"\s*(?P<version>(.*))` under `re.match`:
skip leading whitespace, require a double quote, read the maximal run of
name characters, require a closing double quote, skip whitespace, and the
rest of the line is the version text. -/
def parse_dep (line : String) : Option (String × String) :=
  match line.toList.dropWhile isPySpace with
  | '"' :: rest =>
    (match rest.dropWhile isDepNameChar with
     | '"' :: tail =>
       some (String.mk (rest.takeWhile isDepNameChar), String.mk (tail.dropWhile isPySpace))
     | _ => none)
  | _ => none

/-- The `Opam` attrs class: one dependency reference. -/
structure Opam where
  name : String
  version : String
deriving DecidableEq, Repr

/-- Modelled from the spec: the `purl` property of `Opam` calls the external
PackageURL library (not part of this repository) with `type="opam"` and the
name only; its string form is `pkg:opam/<name>`. -/
def Opam.purl (d : Opam) : String := "pkg:opam/" ++ d.name

/-- A value stored in the `opam_data` mapping: a cleaned string, a list of
strings (`maintainer`, `authors`), or a list of dependency references
(`depends`). -/
inductive OpamValue where
  | str : String → OpamValue
  | strs : List String → OpamValue
  | deps : List Opam → OpamValue
deriving DecidableEq, Repr

/-- The `opam_data` mapping: an insertion-ordered dict. -/
abbrev OpamData := List (String × OpamValue)

/-- Python dict assignment `d[k] = v`: update in place when the key exists,
append otherwise. -/
def setKey : OpamData → String → OpamValue → OpamData
  | [], k, v => [(k, v)]
  | (k0, v0) :: rest, k, v =>
    if k0 = k then (k, v) :: rest else (k0, v0) :: setKey rest k v

/-- Python `d.get(k)`. -/
def getVal : OpamData → String → Option OpamValue
  | [], _ => none
  | (k0, v0) :: rest, k => if k0 = k then some v0 else getVal rest k

/-- `d.get(k)` when the stored value is a plain string. -/
def getStr (m : OpamData) (k : String) : Option String :=
  match getVal m k with
  | some (OpamValue.str s) => some s
  | _ => none

/-- `d.get(k) or []` (string-list valued keys). -/
def getStrs (m : OpamData) (k : String) : List String :=
  match getVal m k with
  | some (OpamValue.strs l) => l
  | _ => []

/-- `d.get(k) or []` (dependency-list valued keys). -/
def getDeps (m : OpamData) (k : String) : List Opam :=
  match getVal m k with
  | some (OpamValue.deps l) => l
  | _ => []

/-- Python `s.split(sep)` for the fixed separator `sep` = quote, space, quote
used by the `maintainer` and `authors` handlers: scan left to right and cut
at each non-overlapping occurrence. -/
def splitQSQ : List Char → List (List Char)
  | [] => [[]]
  | '"' :: ' ' :: '"' :: rest => [] :: splitQSQ rest
  | c :: rest =>
    match splitQSQ rest with
    | [] => [[c]]
    | t :: ts => (c :: t) :: ts

/-- String form of `splitQSQ`. -/
def pySplitQSQ (s : String) : List String := (splitQSQ s.toList).map String.mk

/-- Take lines up to and including the first one satisfying `p`
(the Python pattern: accumulate, then `break` after the delimiter line). -/
def takeUntilIncl (p : String → Bool) : List String → List String
  | [] => []
  | x :: rest => if p x then [x] else x :: takeUntilIncl p rest

/-- Take lines strictly before the first one satisfying `p`
(the Python pattern: `break` before processing the delimiter line). -/
def takeUntilExcl (p : String → Bool) : List String → List String
  | [] => []
  | x :: rest => if p x then [] else x :: takeUntilExcl p rest

/-- One iteration of the `parse_opam` loop, for line number `i` holding
`line`, acting on the accumulated mapping `acc`. `lines` is the whole file,
needed for the look-ahead slices `lines[i+1:]` and the index `lines[i+1]`.
Python exceptions are modelled as `Except.error`: `"IndexError"` for the
out-of-range `lines[i+1]` in the `src` handler, `"AttributeError"` for
`.group` on the unguarded failed match in the multi-line `checksum` handler. -/
def parseOpamStep (lines : List String) (i : Nat) (line : String) (acc : OpamData) :
    Except String OpamData :=
  match parse_file_line line with
  | none => Except.ok acc
  | some (k0, v0) =>
    let key := pyStrip k0
    let value :=
      if key = "description" then
        String.join ((takeUntilIncl (fun c => pyInStr "\"\"\"" c) (lines.drop (i + 1))).map
          (fun c => " " ++ pyStrip c))
      else pyStrip v0
    let acc1 := setKey acc key (OpamValue.str (clean_data value))
    if key = "maintainer" then
      Except.ok (setKey acc1 key
        (OpamValue.strs (pySplitQSQ (pyStripChars ['[', '"', ']', ' '] value))))
    else if key = "authors" then
      let value2 :=
        if pyContainsChar '[' line then
          pyStripChars ['[', '"', ']', ' ']
            (value ++ String.join ((takeUntilIncl (fun a => pyContainsChar ']' a)
              (lines.drop (i + 1))).map (fun a => " " ++ pyStrip a)))
        else clean_data value
      Except.ok (setKey acc1 key (OpamValue.strs (pySplitQSQ value2)))
    else if key = "depends" then
      let depLines := takeUntilExcl (fun d => pyContainsChar ']' d) (lines.drop (i + 1))
      let ds := depLines.filterMap (fun d =>
        (parse_dep d).map (fun nv =>
          Opam.mk (pyStrip nv.1) (removeChar '"' (pyStripChars ['{', ' ', '}'] nv.2))))
      Except.ok (setKey acc1 key (OpamValue.deps ds))
    else if key = "src" then
      if value = "" then
        match lines[i + 1]? with
        | none => Except.error "IndexError"
        | some nxt => Except.ok (setKey acc1 key (OpamValue.str (clean_data (pyStrip nxt))))
      else Except.ok (setKey acc1 key (OpamValue.str (clean_data value)))
    else if key = "checksum" then
      if pyContainsChar '[' line then
        let subLines := takeUntilExcl
          (fun c => pyContainsChar ']' (pyStripChars ['"', ' '] c)) (lines.drop (i + 1))
        subLines.foldlM (fun m c =>
          match parse_checksum (pyStripChars ['"', ' '] c) with
          | none => Except.error "AttributeError"
          | some kv =>
            Except.ok (setKey m (clean_data (pyStrip kv.1))
              (OpamValue.str (clean_data (pyStrip kv.2))))) acc1
      else
        match parse_checksum (pyStripChars ['"', ' '] value) with
        | none => Except.ok acc1
        | some kv =>
          Except.ok (setKey acc1 (clean_data (pyStrip kv.1))
            (OpamValue.str (clean_data (pyStrip kv.2))))
    else Except.ok acc1

/-- `parse_opam` from opam.py, on the list of lines of the manifest file
(the `io.open`/`readlines` step is the caller's concern in this model). -/
def parse_opam (lines : List String) : Except String OpamData :=
  lines.enum.foldlM (fun acc il => parseOpamStep lines il.1 il.2 acc) []

/-- `is_opam` from opam.py: `location.endswith('opam')`. -/
def is_opam (location : String) : Bool :=
  List.isSuffixOf "opam".toList location.toList

/-- `models.party_person`. -/
def party_person : String := "person"

/-- The fields of `models.Party` that opam.py sets. -/
structure Party where
  type : String
  name : Option String
  email : Option String
  role : String
deriving DecidableEq, Repr

/-- The fields of `models.DependentPackage` that opam.py sets. -/
structure DependentPackage where
  purl : String
  requirement : String
  scope : String
  is_runtime : Bool
  is_optional : Bool
  is_resolved : Bool
deriving DecidableEq, Repr

/-- The fields of `OpamPackage` that `build_opam_package` sets. -/
structure OpamPackage where
  name : Option String
  vcs_url : Option String
  homepage_url : Option String
  download_url : Option String
  sha1 : Option String
  md5 : Option String
  sha256 : Option String
  sha512 : Option String
  bug_tracking_url : Option String
  declared_license : Option String
  description : Option String
  parties : List Party
  dependencies : List DependentPackage
deriving DecidableEq, Repr

/-- Python truthiness of an optional string (`None` and `''` are falsy). -/
def truthy : Option String → Bool
  | none => false
  | some s => !(s == "")

/-- `build_opam_package` from opam.py. -/
def build_opam_package (package_data : OpamData) : OpamPackage :=
  let deps := getDeps package_data "depends"
  let package_dependencies := deps.map (fun dep =>
    DependentPackage.mk dep.purl dep.version "dependency" true false false)
  let summary := getStr package_data "synopsis"
  let description0 := getStr package_data "description"
  let description :=
    if truthy summary then summary
    else if truthy summary && truthy description0 then
      (if (summary.getD "").length > (description0.getD "").length then summary
       else description0)
    else description0
  let authors := getStrs package_data "authors"
  let maintainers := getStrs package_data "maintainer"
  let parties :=
    authors.map (fun a => Party.mk party_person (some a) none "author")
      ++ maintainers.map (fun m => Party.mk party_person none (some m) "maintainer")
  OpamPackage.mk
    (getStr package_data "name")
    (getStr package_data "dev-repo")
    (getStr package_data "homepage")
    (getStr package_data "src")
    (getStr package_data "sha1")
    (getStr package_data "md5")
    (getStr package_data "sha256")
    (getStr package_data "sha512")
    (getStr package_data "bug-reports")
    (getStr package_data "license")
    description
    parties
    package_dependencies

/-- `parse` from opam.py: `location` is the file path and `fileLines` the
lines of the file at that path; a non-opam path returns `none` whatever the
file holds (the file is only read after the name test). -/
def parse (location : String) (fileLines : List String) :
    Option (Except String OpamPackage) :=
  if is_opam location then some (Except.map build_opam_package (parse_opam fileLines))
  else none

/-! ## General lemmas about the embedded primitives -/

theorem toList_append (s t : String) : (s ++ t).toList = s.toList ++ t.toList := rfl

theorem dropWhile_dropWhile (p : Char → Bool) (l : List Char) :
    (l.dropWhile p).dropWhile p = l.dropWhile p := by
  induction l with
  | nil => rfl
  | cons a rest ih =>
    by_cases h : p a
    · rw [List.dropWhile_cons_of_pos h]; exact ih
    · rw [List.dropWhile_cons_of_neg h, List.dropWhile_cons_of_neg h]

theorem pyStrip_mk_dropWhile (l : List Char) :
    pyStrip (String.mk (l.dropWhile isPySpace)) = pyStrip (String.mk l) := by
  unfold pyStrip stripWith lstripWith
  rw [show (String.mk (l.dropWhile isPySpace)).toList = l.dropWhile isPySpace from rfl,
    show (String.mk l).toList = l from rfl, dropWhile_dropWhile]

theorem mem_of_mem_stripWith {a : Char} {p : Char → Bool} {l : List Char}
    (h : a ∈ stripWith p l) : a ∈ l := by
  unfold stripWith rstripWith lstripWith at h
  have h1 := List.mem_reverse.mp h
  have h2 := (List.dropWhile_sublist p).subset h1
  have h3 := List.mem_reverse.mp h2
  exact (List.dropWhile_sublist p).subset h3

theorem pyContainsChar_eq_false {c : Char} {s : String} (h : c ∉ s.toList) :
    pyContainsChar c s = false := by
  apply Bool.eq_false_iff.mpr
  intro htrue
  unfold pyContainsChar at htrue
  rw [List.any_eq_true] at htrue
  obtain ⟨x, hx, hxc⟩ := htrue
  exact h ((beq_iff_eq.mp hxc) ▸ hx)

theorem breakAtFirst_eq_none {c : Char} {l : List Char} (h : c ∉ l) :
    breakAtFirst c l = none := by
  induction l with
  | nil => rfl
  | cons a rest ih =>
    unfold breakAtFirst
    rw [if_neg (fun (e : a = c) => h (e ▸ List.mem_cons_self a rest)),
      ih (fun hm => h (List.mem_cons_of_mem a hm))]

theorem parse_checksum_eq_none {s : String} (h : '=' ∉ s.toList) :
    parse_checksum s = none := by
  unfold parse_checksum
  cases hl : s.toList with
  | nil => rfl
  | cons a rest =>
    rw [hl] at h
    simp only
    rw [breakAtFirst_eq_none (fun hm => h (List.mem_cons_of_mem a hm))]

/-! ## Claims -/

/-- C1: whenever the field mapping holds `synopsis` with a non-empty string
value, the record built by `build_opam_package` has its description equal to
that synopsis value, whatever `description` holds: the builder runs
`if summary: description = summary` before anything else can be kept. -/
theorem c1_synopsis_wins (pd : OpamData) (s : String)
    (hs : getStr pd "synopsis" = some s) (hne : s ≠ "") :
    (build_opam_package pd).description = some s := by
  simp [build_opam_package, hs, truthy, hne]

theorem c1_synopsis_wins_witness :
    getStr [("synopsis", OpamValue.str "short"), ("description", OpamValue.str "longer text")]
      "synopsis" = some "short" ∧
    (build_opam_package
      [("synopsis", OpamValue.str "short"),
       ("description", OpamValue.str "longer text")]).description = some "short" :=
  ⟨rfl, c1_synopsis_wins
    [("synopsis", OpamValue.str "short"), ("description", OpamValue.str "longer text")]
    "short" rfl (by decide)⟩

/-- C3: for the two-entry `depends` block of the claim, the mapping holds the
two dependency references with the stated names and cleaned requirements, the
built record's dependency list has exactly those two entries with purl
`pkg:opam/<name>`, scope `dependency`, `is_runtime`, not optional, not
resolved; and in general the builder maps every stored dependency reference
to exactly such an entry. -/
theorem c3_depends_block :
    parse_opam ["depends: [", "  \x22ocaml\x22 \x7b= \x224.11.0\x22 & post\x7d",
        "  \x22base-unix\x22 \x7bpost\x7d", "]"]
      = Except.ok [("depends", OpamValue.deps
          [Opam.mk "ocaml" "= 4.11.0 & post", Opam.mk "base-unix" "post"])]
    ∧ Except.map (fun m => (build_opam_package m).dependencies)
        (parse_opam ["depends: [", "  \x22ocaml\x22 \x7b= \x224.11.0\x22 & post\x7d",
          "  \x22base-unix\x22 \x7bpost\x7d", "]"])
      = Except.ok
          [DependentPackage.mk "pkg:opam/ocaml" "= 4.11.0 & post" "dependency" true false false,
           DependentPackage.mk "pkg:opam/base-unix" "post" "dependency" true false false]
    ∧ ∀ pd : OpamData, (build_opam_package pd).dependencies =
        (getDeps pd "depends").map (fun dep =>
          DependentPackage.mk dep.purl dep.version "dependency" true false false) :=
  ⟨rfl, rfl, fun _ => rfl⟩

/-- C4: for the multi-line `checksum` block of the claim, the algorithm/digest
pairs land directly in the top-level mapping under the algorithm names (the
`checksum` key itself only keeps the cleaned opening value, an empty string),
and the built record has `sha1 = "abcd"` and `md5 = "ef01"` as distinct
top-level fields. -/
theorem c4_checksum_block :
    parse_opam ["checksum: [", "  \x22sha1=abcd\x22", "  \x22md5=ef01\x22", "]"]
      = Except.ok [("checksum", OpamValue.str ""), ("sha1", OpamValue.str "abcd"),
          ("md5", OpamValue.str "ef01")]
    ∧ Except.map (fun m => ((build_opam_package m).sha1, (build_opam_package m).md5))
        (parse_opam ["checksum: [", "  \x22sha1=abcd\x22", "  \x22md5=ef01\x22", "]"])
      = Except.ok (some "abcd", some "ef01") :=
  ⟨rfl, rfl⟩

/-- C5: for every file path that does not end in `opam`, `parse` returns no
result whatever the file's lines are (the content is never consulted), and
that absence is a `none`, not an error. -/
theorem c5_not_opam (location : String) (fileLines : List String)
    (h : is_opam location = false) : parse location fileLines = none := by
  simp [parse, h]

theorem c5_not_opam_witness :
    is_opam "README.txt" = false ∧ parse "README.txt" ["name: \x22foo\x22"] = none :=
  ⟨rfl, c5_not_opam "README.txt" ["name: \x22foo\x22"] rfl⟩

/-- C6: for the claim's `maintainer` line, the built record's parties are
exactly two person parties of role `maintainer` carrying the two addresses as
emails with no name set; and in general the builder gives every maintainer
string an email-only party (authors, by contrast, get name-only parties). -/
theorem c6_maintainer_parties :
    Except.map (fun m => (build_opam_package m).parties)
        (parse_opam ["maintainer: \x22a@example.com\x22 \x22b@example.com\x22"])
      = Except.ok
          [Party.mk "person" none (some "a@example.com") "maintainer",
           Party.mk "person" none (some "b@example.com") "maintainer"]
    ∧ ∀ pd : OpamData, (build_opam_package pd).parties =
        (getStrs pd "authors").map (fun a => Party.mk party_person (some a) none "author")
          ++ (getStrs pd "maintainer").map (fun m =>
            Party.mk party_person none (some m) "maintainer") :=
  ⟨rfl, fun _ => rfl⟩

/-- C8: on a string containing none of the characters removed by
`clean_data` (quote, double quote, and the two square brackets), cleaning
only trims surrounding whitespace; on such a string that is already trimmed,
cleaning is the identity. -/
theorem c8_clean_identity (s : String) (h : ∀ c ∈ s.toList, c ∉ strippables) :
    clean_data s = pyStrip s ∧ (pyStrip s = s → clean_data s = s) := by
  have hf : s.toList.filter (fun c => !(strippables.contains c)) = s.toList := by
    apply List.filter_eq_self.mpr
    intro a ha
    simpa using h a ha
  constructor
  · unfold clean_data
    rw [hf]
    rfl
  · intro h2
    unfold clean_data
    rw [hf]
    exact h2

theorem c8_clean_identity_witness :
    (∀ c ∈ "hello world".toList, c ∉ strippables) ∧
    clean_data "hello world" = "hello world" :=
  ⟨by decide, (c8_clean_identity "hello world" (by decide)).2 (by decide)⟩

theorem parse_opam_one (l0 : String) :
    parse_opam [l0] = parseOpamStep [l0] 0 l0 [] := by
  simp [parse_opam, List.foldlM, List.enum, List.enumFrom]

theorem parse_opam_two (l0 l1 : String) :
    parse_opam [l0, l1] =
      parseOpamStep [l0, l1] 0 l0 [] >>= fun m => parseOpamStep [l0, l1] 1 l1 m := by
  simp [parse_opam, List.foldlM, List.enum, List.enumFrom]

theorem parse_opam_three (l0 l1 l2 : String) :
    parse_opam [l0, l1, l2] =
      parseOpamStep [l0, l1, l2] 0 l0 [] >>= fun m =>
        parseOpamStep [l0, l1, l2] 1 l1 m >>= fun m2 =>
          parseOpamStep [l0, l1, l2] 2 l2 m2 := by
  simp [parse_opam, List.foldlM, List.enum, List.enumFrom]

/-- C7: in the `src` handler, an empty same-line value makes the stored
`src` value the cleaned, trimmed text of the immediately following line,
while a non-empty same-line value is cleaned and stored itself; and on the
claim's two-line manifest the built record's download_url is the following
line's cleaned text. -/
theorem c7_src_value_selection :
    (∀ (lines : List String) (i : Nat) (acc : OpamData) (line k0 v0 nxt : String),
      parse_file_line line = some (k0, v0) → pyStrip k0 = "src" → pyStrip v0 = "" →
      lines[i + 1]? = some nxt →
      parseOpamStep lines i line acc =
        Except.ok (setKey (setKey acc "src" (OpamValue.str (clean_data "")))
          "src" (OpamValue.str (clean_data (pyStrip nxt)))))
    ∧ (∀ (lines : List String) (i : Nat) (acc : OpamData) (line k0 v0 : String),
      parse_file_line line = some (k0, v0) → pyStrip k0 = "src" → pyStrip v0 ≠ "" →
      parseOpamStep lines i line acc =
        Except.ok (setKey (setKey acc "src" (OpamValue.str (clean_data (pyStrip v0))))
          "src" (OpamValue.str (clean_data (pyStrip v0)))))
    ∧ Except.map (fun m => (build_opam_package m).download_url)
        (parse_opam ["src:", "  https://example.com/archive.tgz"])
      = Except.ok (some "https://example.com/archive.tgz") := by
  refine ⟨?_, ?_, rfl⟩
  · intro lines i acc line k0 v0 nxt hp hk hv hn
    simp [parseOpamStep, hp, hk, hv, hn]
  · intro lines i acc line k0 v0 hp hk hv
    simp [parseOpamStep, hp, hk, hv]

theorem c7_src_value_selection_witness :
    parseOpamStep ["src:", "u"] 0 "src:" [] =
      Except.ok (setKey (setKey [] "src" (OpamValue.str (clean_data "")))
        "src" (OpamValue.str (clean_data (pyStrip "u"))))
    ∧ parseOpamStep ["src: u"] 0 "src: u" [] =
      Except.ok (setKey (setKey [] "src" (OpamValue.str (clean_data (pyStrip "u"))))
        "src" (OpamValue.str (clean_data (pyStrip "u")))) :=
  ⟨c7_src_value_selection.1 ["src:", "u"] 0 [] "src:" "src" "" "u" rfl rfl rfl rfl,
   c7_src_value_selection.2.1 ["src: u"] 0 [] "src: u" "src" "u" rfl rfl (by decide)⟩

/-- C9: when a line with key `src` and empty value is the last line of the
manifest, `parse_opam` hits the out-of-range `lines[i+1]` and raises an
IndexError instead of returning a field mapping (the next-line rule silently
assumes a following line exists). -/
theorem c9_src_last_line :
    (∀ (lines : List String) (i : Nat) (acc : OpamData) (line k0 v0 : String),
      parse_file_line line = some (k0, v0) → pyStrip k0 = "src" → pyStrip v0 = "" →
      lines[i + 1]? = none →
      parseOpamStep lines i line acc = Except.error "IndexError")
    ∧ parse_opam ["name: \x22foo\x22", "src:"] = Except.error "IndexError" := by
  refine ⟨?_, rfl⟩
  intro lines i acc line k0 v0 hp hk hv hn
  simp [parseOpamStep, hp, hk, hv, hn]

theorem c9_src_last_line_witness :
    parseOpamStep ["src:"] 0 "src:" [] = Except.error "IndexError" :=
  c9_src_last_line.1 ["src:"] 0 [] "src:" "src" "" rfl rfl rfl rfl

theorem checksum_single_step (lines : List String) (i : Nat) (acc : OpamData)
    (line k0 v0 : String)
    (hp : parse_file_line line = some (k0, v0))
    (hk : pyStrip k0 = "checksum")
    (hb : pyContainsChar '[' line = false)
    (hcs : parse_checksum (pyStripChars ['"', ' '] (pyStrip v0)) = none) :
    parseOpamStep lines i line acc =
      Except.ok (setKey acc "checksum" (OpamValue.str (clean_data (pyStrip v0)))) := by
  simp [parseOpamStep, hp, hk, hb, hcs]

/-- C2 counterexample: a single-line `checksum:` field whose value has no `=`
delimiter does NOT raise — the sub-parse result is guarded by
`if parsed_checksum:` on that path, so the parse returns a mapping (holding
the generically cleaned `checksum` value). -/
theorem c2_single_line_checksum_no_raise :
    parse_opam ["checksum: deadbeef"] =
      Except.ok [("checksum", OpamValue.str "deadbeef")] := rfl

/-- C2 (amended): the guard asymmetry of the two checksum paths is the reverse
of the claim: a single-line `checksum:` value lacking `=` is checked before
use and never raises (the field keeps its generically cleaned value), while a
line inside a multi-line `checksum: [` block lacking `=` raises; a `depends`
block line failing the dependency-line pattern never raises. -/
theorem c2_checksum_guard_asymmetry :
    (∀ v : String, '=' ∉ v.toList → '[' ∉ v.toList →
      parse_opam ["checksum: " ++ v]
        = Except.ok [("checksum", OpamValue.str (clean_data (pyStrip v)))])
    ∧ parse_opam ["checksum: [", "deadbeef", "]"] = Except.error "AttributeError"
    ∧ (∀ d : String, parse_file_line d = none → parse_dep d = none →
      parse_opam ["depends: [", d, "]"] = Except.ok [("depends", OpamValue.deps [])]) := by
  refine ⟨?_, rfl, ?_⟩
  · intro v hne hnb
    have hL : ("checksum: " ++ v).toList =
        'c' :: 'h' :: 'e' :: 'c' :: 'k' :: 's' :: 'u' :: 'm' :: ':' :: ' ' :: v.toList := rfl
    have hpfl : parse_file_line ("checksum: " ++ v)
        = some ("checksum", String.mk (v.toList.dropWhile isPySpace)) := by
      unfold parse_file_line
      rw [hL]
      simp [breakAtFirst, List.dropWhile_cons, isPySpace]
    have hb : pyContainsChar '[' ("checksum: " ++ v) = false := by
      unfold pyContainsChar
      rw [hL]
      simp only [List.any_cons, Bool.or_eq_false_iff]
      refine ⟨by decide, by decide, by decide, by decide, by decide, by decide, by decide,
        by decide, by decide, by decide, ?_⟩
      apply Bool.eq_false_iff.mpr
      intro htrue
      rw [List.any_eq_true] at htrue
      obtain ⟨x, hx, hxc⟩ := htrue
      exact hnb ((beq_iff_eq.mp hxc) ▸ hx)
    have hv0eq : pyStrip (String.mk (v.toList.dropWhile isPySpace)) = pyStrip v := by
      rw [pyStrip_mk_dropWhile]
      rfl
    have hsub : ∀ a : Char, a ∈ (pyStripChars ['"', ' '] (pyStrip v)).toList → a ∈ v.toList :=
      fun a ha => mem_of_mem_stripWith (mem_of_mem_stripWith ha)
    have hcs : parse_checksum (pyStripChars ['"', ' '] (pyStrip v)) = none :=
      parse_checksum_eq_none (fun hm => hne (hsub '=' hm))
    have hstep := checksum_single_step ["checksum: " ++ v] 0 [] ("checksum: " ++ v)
      "checksum" (String.mk (v.toList.dropWhile isPySpace)) hpfl rfl hb
      (by rw [hv0eq]; exact hcs)
    rw [parse_opam_one, hstep, hv0eq]
    rfl
  · intro d h1 h2
    rw [parse_opam_three]
    have hp0 : parse_file_line "depends: [" = some ("depends", "[") := rfl
    have hk : pyStrip "depends" = "depends" := rfl
    have hbr : pyContainsChar ']' "]" = true := rfl
    have step0 : parseOpamStep ["depends: [", d, "]"] 0 "depends: [" []
        = Except.ok [("depends", OpamValue.deps [])] := by
      by_cases hd : pyContainsChar ']' d = true
      · simp [parseOpamStep, hp0, hk, takeUntilExcl, hd, hbr, setKey]
      · have hd2 : pyContainsChar ']' d = false := by
          simpa using hd
        simp [parseOpamStep, hp0, hk, takeUntilExcl, hd2, hbr, h2, setKey]
    have step1 : parseOpamStep ["depends: [", d, "]"] 1 d [("depends", OpamValue.deps [])]
        = Except.ok [("depends", OpamValue.deps [])] := by
      simp [parseOpamStep, h1]
    rw [step0]
    show parseOpamStep ["depends: [", d, "]"] 1 d [("depends", OpamValue.deps [])] >>= _ = _
    rw [step1]
    rfl

theorem c2_checksum_guard_asymmetry_witness :
    parse_opam ["checksum: cafe"]
      = Except.ok [("checksum", OpamValue.str (clean_data (pyStrip "cafe")))]
    ∧ parse_opam ["depends: [", "nodep", "]"]
      = Except.ok [("depends", OpamValue.deps [])] :=
  ⟨c2_checksum_guard_asymmetry.1 "cafe" (by decide) (by decide),
   c2_checksum_guard_asymmetry.2.2 "nodep" rfl rfl⟩

/-- C10: inside a multi-line `checksum: [` block, a following line that
(after stripping surrounding double quotes and spaces) neither contains `]`
nor matches the key=value pattern makes `parse_opam` raise (AttributeError
from the unguarded `.group` call), e.g. a blank line or a line with no `=`. -/
theorem c10_checksum_block_raises :
    (∀ c : String,
      pyContainsChar ']' (pyStripChars ['"', ' '] c) = false →
      parse_checksum (pyStripChars ['"', ' '] c) = none →
      parse_opam ["checksum: [", c] = Except.error "AttributeError")
    ∧ parse_opam ["checksum: [", "", "]"] = Except.error "AttributeError"
    ∧ parse_opam ["checksum: [", "no-delimiter-here", "]"] = Except.error "AttributeError" := by
  refine ⟨?_, rfl, rfl⟩
  intro c h1 h2
  rw [parse_opam_two]
  have hp : parse_file_line "checksum: [" = some ("checksum", "[") := rfl
  have hk : pyStrip "checksum" = "checksum" := rfl
  have hv : pyStrip "[" = "[" := rfl
  have hcb : pyContainsChar '[' "checksum: [" = true := rfl
  have step0 : parseOpamStep ["checksum: [", c] 0 "checksum: [" []
      = Except.error "AttributeError" := by
    simp [parseOpamStep, hp, hk, hv, hcb, takeUntilExcl, h1, h2, List.foldlM]
  rw [step0]
  rfl

theorem c10_checksum_block_raises_witness :
    parse_opam ["checksum: [", "xyz"] = Except.error "AttributeError" :=
  c10_checksum_block_raises.1 "xyz" rfl rfl

end OpamToolkit
